import Mathlib

/-!
Shallow embedding of the S3 protocol-orchestration client
(`object_store/src/aws/client.rs`) and proofs about its operations:
multipart completion, signed-retry credential flow, list pagination,
checksum policy, request assembly, path encoding and the error taxonomy.

Collaborators of the client that live elsewhere in the repository
(retry executor, pagination driver, decoded list response, checksum kind,
upload-part record, strict encode set) are modelled from the spec; each
such definition carries a doc comment saying so.
-/

namespace S3


/-- Modelled from the spec: `crate::multipart::UploadPart` (not under `src/`) —
a successfully uploaded part, carrying the entity tag the server returned
(`content_id`); it embeds no part number. -/
structure UploadPart where
  content_id : String
  deriving DecidableEq, Repr

/-- One entry of the completion manifest (`struct MultipartPart` in
`client.rs`): an entity tag paired with a part number. -/
structure MultipartPart where
  e_tag : String
  part_number : Nat
  deriving DecidableEq, Repr

/-- The completion manifest (`struct CompleteMultipart` in `client.rs`),
serialized as `<CompleteMultipartUpload>` on the wire. -/
structure CompleteMultipart where
  part : List MultipartPart
  deriving DecidableEq, Repr

/-- The manifest-assembly step of `S3Client::complete_multipart`
(`client.rs` lines 420-427): enumerate the supplied parts and pair each
entity tag with its 1-based position. -/
def completeParts (parts : List UploadPart) : List MultipartPart :=
  (parts.enum).map (fun p => { e_tag := p.2.content_id, part_number := p.1 + 1 })

/-! ## Credential snapshots and the signed-retry flow -/

/-- A credential snapshot, identified abstractly; `provider n` is the
snapshot the credential provider hands out on its `n`-th fetch. -/
abbrev Cred := Nat

/-- The observable state of the credential provider: how many fetches have been
served so far. -/
structure ProviderState where
  fetches : Nat
  deriving DecidableEq, Repr

/-- `S3Client::get_credential` (`client.rs` lines 168-170): one fetch from
the shared provider, returning the current snapshot of the provider. -/
def get_credential (provider : Nat → Cred) (s : ProviderState) :
    Cred × ProviderState :=
  (provider s.fetches, ⟨s.fetches + 1⟩)

/-- Modelled from the spec: the signed-retry executor
(`crate::client::retry::RetryExt::send_retry`, not under `src/`). Per the
spec each attempt computes a fresh signature (fresh timestamp); the
credential it signs with is the one snapshot the caller baked into the
request before `send_retry`, since `send_retry` receives only the retry
config. Returns the snapshot signing each of the `attempts` attempts. -/
def send_retry_creds (credential : Cred) (attempts : Nat) : List Cred :=
  List.replicate attempts credential

/-- The credential flow of `S3Client::get_request` (`client.rs` lines
179-198; `put_request` lines 213-244 is identical in this respect): fetch
one snapshot, then hand the signed request to the retry loop. Returns the
snapshot signing each attempt, and the provider state afterwards. -/
def get_request_attempt_creds (provider : Nat → Cred) (s : ProviderState)
    (attempts : Nat) : List Cred × ProviderState :=
  let fetched := get_credential provider s
  (send_retry_creds fetched.1 attempts, fetched.2)

/-! ## Request assembly: methods, list query -/

/-- HTTP method of an assembled request. -/
inductive Method
  | GET
  | PUT
  | POST
  | DELETE
  | HEAD
  deriving DecidableEq, Repr

/-- `crate::path::DELIMITER` (not under `src/`): the path delimiter, `/`. -/
def DELIMITER : String := "/"

/-- An assembled outgoing HTTP request. -/
structure HttpRequest where
  method : Method
  url : String
  query : List (String × String)
  headers : List (String × String)
  deriving DecidableEq, Repr

/-- The parts of `S3Config` the assembled requests depend on
(`client.rs` lines 132-143). -/
structure S3Config where
  bucket : String
  bucket_endpoint : String
  deriving DecidableEq, Repr

/-- The query-building steps of `S3Client::list_request` (`client.rs`
lines 316-334), pushed in source order: continuation-token, delimiter,
list-type, prefix, start-after. -/
def list_query (pfx : Option String) (delimiter : Bool)
    (token : Option String) (off : Option String) :
    List (String × String) :=
  let q : List (String × String) := []
  let q := match token with
    | some t => q ++ [("continuation-token", t)]
    | none => q
  let q := if delimiter then q ++ [("delimiter", DELIMITER)] else q
  let q := q ++ [("list-type", "2")]
  let q := match pfx with
    | some p => q ++ [("prefix", p)]
    | none => q
  match off with
  | some o => q ++ [("start-after", o)]
  | none => q

/-- The outgoing request of `S3Client::list_request` (`client.rs` lines
313-339): a GET to the bucket endpoint carrying `list_query`. -/
def list_http_request (config : S3Config) (pfx : Option String)
    (delimiter : Bool) (token : Option String) (off : Option String) :
    HttpRequest :=
  { method := .GET, url := config.bucket_endpoint,
    query := list_query pfx delimiter token off, headers := [] }

/-! ## Decoded list responses and pagination -/

/-- Modelled from the spec: the decoded structured list response
(`crate::client::list::ListResponse`, not under `src/`): the optional
continuation token plus the remaining decoded entries. -/
structure ListResponse where
  next_continuation_token : Option String
  contents : List String
  deriving DecidableEq, Repr

/-- A page result handed to the caller (`crate::ListResult`, not under
`src/`): the decoded entries; a `ListResult` has no token field. -/
structure ListResult where
  objects : List String
  deriving DecidableEq, Repr

/-- Modelled from the spec: the `ListResponse -> ListResult` conversion
(`response.try_into()` in `client.rs` line 358): hands the remaining
structure — the decoded entries — to the caller. -/
def ListResponse.toListResult (r : ListResponse) : ListResult :=
  ⟨r.contents⟩

/-- The four parameters of one list page request
(`S3Client::list_request`, `client.rs` lines 306-311). -/
structure ListParams where
  pfx : Option String
  delimiter : Bool
  token : Option String
  off : Option String
  deriving DecidableEq, Repr

/-- The decode-and-extract tail of `S3Client::list_request` (`client.rs`
lines 354-358), with the transport-plus-decode pipeline abstracted as a
`server` mapping request parameters to the decoded response: take the
continuation token out of the response (leaving `none` in its place) and
convert what remains into the page result. -/
def list_request (server : ListParams → ListResponse) (p : ListParams) :
    ListResult × Option String :=
  let response := server p
  let token := response.next_continuation_token
  let response := { response with next_continuation_token := none }
  (response.toListResult, token)

/-- Modelled from the spec: the pagination engine
(`crate::client::pagination::stream_paginated`, not under `src/`) driving
`S3Client::list_paginated` (`client.rs` lines 362-385): starting from no
token, repeatedly call `list_request` with the fixed prefix, delimiter and
offset, threading the extracted token; stop after the first page whose
response carries no token. `fuel` bounds the walk so the function is
total; returns the requests issued and the pages yielded, in order. -/
def paginate (server : ListParams → ListResponse) (pfx : Option String)
    (delimiter : Bool) (off : Option String) :
    Nat → Option String → List ListParams × List ListResult
  | 0, _ => ([], [])
  | fuel + 1, token =>
    let p : ListParams := ⟨pfx, delimiter, token, off⟩
    let r := list_request server p
    match r.2 with
    | none => ([p], [r.1])
    | some t =>
      let rest := paginate server pfx delimiter off fuel (some t)
      (p :: rest.1, r.1 :: rest.2)

/-- `S3Client::list_paginated` (`client.rs` lines 362-385): seed the walk
with the fixed prefix, delimiter and offset and no token. -/
def list_paginated (server : ListParams → ListResponse)
    (pfx : Option String) (delimiter : Bool) (off : Option String)
    (fuel : Nat) : List ListParams × List ListResult :=
  paginate server pfx delimiter off fuel none

/-- A three-page simulated server: tokens on pages one and two, none on
page three. -/
def demoServer : ListParams → ListResponse := fun p =>
  match p.token with
  | none => ⟨some "t1", ["page1"]⟩
  | some "t1" => ⟨some "t2", ["page2"]⟩
  | some _ => ⟨none, ["page3"]⟩

/-! ## Checksum policy and put requests -/

/-- Byte strings (each entry a byte value). -/
abbrev Bytes := List Nat

/-- Modelled from the spec: the configured checksum kind
(`crate::aws::checksum::Checksum`, not under `src/`); SHA256 is the kind
used for payload-hash signing. -/
inductive Checksum
  | SHA256
  deriving DecidableEq, Repr

/-- Modelled from the spec: the header name under which the digest of a checksum
kind is attached (`Checksum::header_name`, not under `src/`). -/
def Checksum.header_name : Checksum → String
  | .SHA256 => "x-amz-checksum-sha256"

/-- The standard base64 alphabet. -/
def base64Alphabet : List Char :=
  "ABCDEFGHIJKLMNOPQRSTUVWXYZabcdefghijklmnopqrstuvwxyz0123456789+/".data

/-- The base64 character for a 6-bit group. -/
def b64char (n : Nat) : Char := base64Alphabet.getD (n % 64) 'A'

/-- Standard base64 with padding (`BASE64_STANDARD.encode`), over bytes. -/
def base64Chars : Bytes → List Char
  | [] => []
  | [b1] => [b64char (b1 / 4), b64char (b1 % 4 * 16), '=', '=']
  | [b1, b2] =>
    [b64char (b1 / 4), b64char (b1 % 4 * 16 + b2 / 16),
     b64char (b2 % 16 * 4), '=']
  | b1 :: b2 :: b3 :: rest =>
    b64char (b1 / 4) :: b64char (b1 % 4 * 16 + b2 / 16) ::
      b64char (b2 % 16 * 4 + b3 / 64) :: b64char (b3 % 64) ::
      base64Chars rest

/-- `BASE64_STANDARD.encode` as a string. -/
def base64Encode (bs : Bytes) : String := ⟨base64Chars bs⟩

/-- What `S3Client::put_request` hands onward: the headers it attached,
the body, and the payload hash passed to the signer
(`payload_sha256.as_deref()` in `client.rs` line 241). -/
structure PutRequest where
  headers : List (String × String)
  body : Option Bytes
  payload_sha256 : Option Bytes
  deriving DecidableEq, Repr

/-- The checksum/body/content-type assembly of `S3Client::put_request`
(`client.rs` lines 216-232), with the digest computation
(`Checksum::digest`, external) abstracted as `digest`: when a payload and
a checksum kind are present, attach `base64(digest)` under the header
name of the kind and, exactly for `SHA256`, record the raw digest as the
payload hash for the signer. -/
def put_request (checksum : Option Checksum)
    (digest : Checksum → Bytes → Bytes) (content_type : Option String)
    (bytes : Option Bytes) : PutRequest :=
  let step : List (String × String) × Option Bytes × Option Bytes :=
    match bytes with
    | some bs =>
      match checksum with
      | some ck =>
        let d := digest ck bs
        ([(ck.header_name, base64Encode d)], some bs,
          if ck = Checksum.SHA256 then some d else none)
      | none => ([], some bs, none)
    | none => ([], none, none)
  let headers := match content_type with
    | some v => step.1 ++ [("content-type", v)]
    | none => step.1
  { headers := headers, body := step.2.1, payload_sha256 := step.2.2 }

/-! ## The error taxonomy -/

/-- The `Error` enum of `client.rs` (lines 44-95); the source error of each variant is carried as its display string. Only the get, put, delete and copy
variants carry the affected path. -/
inductive S3Error
  | GetRequest (source : String) (path : String)
  | GetResponseBody (source : String) (path : String)
  | PutRequest (source : String) (path : String)
  | DeleteRequest (source : String) (path : String)
  | CopyRequest (source : String) (path : String)
  | ListRequest (source : String)
  | ListResponseBody (source : String)
  | CreateMultipartRequest (source : String)
  | CreateMultipartResponseBody (source : String)
  | CompleteMultipartRequest (source : String)
  | InvalidListResponse (source : String)
  | InvalidMultipartResponse (source : String)
  deriving DecidableEq, Repr

/-- The snafu display string of each `Error` variant
(`client.rs` lines 45-94). -/
def S3Error.message : S3Error → String
  | .GetRequest s p => "Error performing get request " ++ p ++ ": " ++ s
  | .GetResponseBody s p =>
    "Error fetching get response body " ++ p ++ ": " ++ s
  | .PutRequest s p => "Error performing put request " ++ p ++ ": " ++ s
  | .DeleteRequest s p =>
    "Error performing delete request " ++ p ++ ": " ++ s
  | .CopyRequest s p => "Error performing copy request " ++ p ++ ": " ++ s
  | .ListRequest s => "Error performing list request: " ++ s
  | .ListResponseBody s => "Error getting list response body: " ++ s
  | .CreateMultipartRequest s =>
    "Error performing create multipart request: " ++ s
  | .CreateMultipartResponseBody s =>
    "Error getting create multipart response body: " ++ s
  | .CompleteMultipartRequest s =>
    "Error performing complete multipart request: " ++ s
  | .InvalidListResponse s => "Got invalid list response: " ++ s
  | .InvalidMultipartResponse s => "Got invalid multipart response: " ++ s

/-- The affected path carried by an `Error` variant, when any. -/
def S3Error.pathOf : S3Error → Option String
  | .GetRequest _ p => some p
  | .GetResponseBody _ p => some p
  | .PutRequest _ p => some p
  | .DeleteRequest _ p => some p
  | .CopyRequest _ p => some p
  | _ => none

/-- The storage operation an error arose from. -/
inductive OpKind
  | get
  | put
  | delete
  | copy
  | list
  | createMultipart
  | completeMultipart
  deriving DecidableEq, Repr

/-- The operation each `Error` variant belongs to. -/
def S3Error.opOf : S3Error → OpKind
  | .GetRequest _ _ => .get
  | .GetResponseBody _ _ => .get
  | .PutRequest _ _ => .put
  | .DeleteRequest _ _ => .delete
  | .CopyRequest _ _ => .copy
  | .ListRequest _ => .list
  | .ListResponseBody _ => .list
  | .InvalidListResponse _ => .list
  | .CreateMultipartRequest _ => .createMultipart
  | .CreateMultipartResponseBody _ => .createMultipart
  | .InvalidMultipartResponse _ => .createMultipart
  | .CompleteMultipartRequest _ => .completeMultipart

/-- The static operation phrase in the display string of each variant. -/
def S3Error.opPhrase : S3Error → String
  | .GetRequest _ _ => "get request"
  | .GetResponseBody _ _ => "get response body"
  | .PutRequest _ _ => "put request"
  | .DeleteRequest _ _ => "delete request"
  | .CopyRequest _ _ => "copy request"
  | .ListRequest _ => "list request"
  | .ListResponseBody _ => "list response body"
  | .CreateMultipartRequest _ => "create multipart request"
  | .CreateMultipartResponseBody _ => "create multipart response body"
  | .CompleteMultipartRequest _ => "complete multipart request"
  | .InvalidListResponse _ => "invalid list response"
  | .InvalidMultipartResponse _ => "invalid multipart response"

/-- Does `needle` start `hay`? -/
def beginsWith : List Char → List Char → Bool
  | [], _ => true
  | _ :: _, [] => false
  | a :: as, b :: bs => a == b && beginsWith as bs

/-- Does `needle` occur contiguously inside `hay`? -/
def containsSeq (needle : List Char) : List Char → Bool
  | [] => needle.isEmpty
  | c :: rest => beginsWith needle (c :: rest) || containsSeq needle rest

/-- Does the string `needle` occur inside the string `hay`? -/
def strContains (needle hay : String) : Bool :=
  containsSeq needle.data hay.data

/-! ## The retry loop and the decode stage -/

/-- Modelled from the spec: the retry executor
(`crate::client::retry::RetryExt::send_retry`, not under `src/`): attempt
the request until the transport succeeds or the budget the policy grants of extra
attempts is exhausted. `outcomes i` is the transport outcome of attempt
`i` (the collected response body on success); returns the number of
attempts made together with the final outcome. Starts at attempt `i`. -/
def send_retry (outcomes : Nat → Except String Bytes) :
    Nat → Nat → Nat × Except String Bytes
  | i, 0 => (i + 1, outcomes i)
  | i, budget + 1 =>
    match outcomes i with
    | .ok r => (i + 1, .ok r)
    | .error _ => send_retry outcomes (i + 1) budget

/-- The transport-then-decode pipeline of `S3Client::list_request`
(`client.rs` lines 336-358): run the retry loop, wrap a transport failure
as `ListRequest`, then decode the successful body (a decode failure is
wrapped as `InvalidListResponse`), take the continuation token out and
convert the remainder. The decoder (`quick_xml::de::from_reader`,
external) is abstracted as `decode`. -/
def list_request_pipeline (outcomes : Nat → Except String Bytes)
    (budget : Nat) (decode : Bytes → Except String ListResponse) :
    Nat × Except S3Error (ListResult × Option String) :=
  let retried := send_retry outcomes 0 budget
  match retried.2 with
  | .error e => (retried.1, .error (.ListRequest e))
  | .ok bodyBytes =>
    match decode bodyBytes with
    | .error e => (retried.1, .error (.InvalidListResponse e))
    | .ok resp =>
      let token := resp.next_continuation_token
      let resp := { resp with next_continuation_token := none }
      (retried.1, .ok (resp.toListResult, token))

/-- The decoded multipart-initiate response (`struct InitiateMultipart`
in `client.rs` lines 112-116). -/
structure InitiateMultipart where
  upload_id : String
  deriving DecidableEq, Repr

/-- The transport-then-decode pipeline of `S3Client::create_multipart`
(`client.rs` lines 391-411): run the retry loop, wrap a transport failure
as `CreateMultipartRequest`, then decode the successful body (a decode
failure is wrapped as `InvalidMultipartResponse`) and return the upload
id. -/
def create_multipart_pipeline (outcomes : Nat → Except String Bytes)
    (budget : Nat) (decode : Bytes → Except String InitiateMultipart) :
    Nat × Except S3Error String :=
  let retried := send_retry outcomes 0 budget
  match retried.2 with
  | .error e => (retried.1, .error (.CreateMultipartRequest e))
  | .ok bodyBytes =>
    match decode bodyBytes with
    | .error e => (retried.1, .error (.InvalidMultipartResponse e))
    | .ok resp => (retried.1, .ok resp.upload_id)

/-- The result of running an operation that may panic. -/
inductive OpOutcome (α : Type)
  | ok (value : α)
  | err (e : S3Error)
  | panicked
  deriving DecidableEq, Repr

/-- `S3Client::complete_multipart` (`client.rs` lines 414-451): assemble
the completion manifest, serialize it — the result of the serializer is
`unwrap`ped, so a serialization failure panics before any request is sent
— then POST it, wrapping a transport failure as
`CompleteMultipartRequest` (which receives no path, though the operation
takes `location`). The serializer (`quick_xml::se::to_string`, external)
is abstracted as `ser`. -/
def complete_multipart (ser : CompleteMultipart → Except String String)
    (outcomes : Nat → Except String Bytes) (budget : Nat)
    (location upload_id : String) (parts : List UploadPart) :
    OpOutcome Unit :=
  let manifest : CompleteMultipart := ⟨completeParts parts⟩
  match ser manifest with
  | .error _ => .panicked
  | .ok _body =>
    match (send_retry outcomes 0 budget).2 with
    | .error e => .err (.CompleteMultipartRequest e)
    | .ok _ => .ok ()

/-! ## Path encoding and copy requests -/

/-- The UTF-8 bytes of one code point — the byte stream
`percent_encoding::utf8_percent_encode` iterates over. -/
def utf8Bytes (c : Nat) : Bytes :=
  if c < 0x80 then [c]
  else if c < 0x800 then [0xC0 + c / 0x40, 0x80 + c % 0x40]
  else if c < 0x10000 then
    [0xE0 + c / 0x1000, 0x80 + c / 0x40 % 0x40, 0x80 + c % 0x40]
  else
    [0xF0 + c / 0x40000, 0x80 + c / 0x1000 % 0x40, 0x80 + c / 0x40 % 0x40,
     0x80 + c % 0x40]

/-- The UTF-8 byte sequence of a string. -/
def stringUTF8 (s : String) : Bytes :=
  (s.data.map (fun ch => utf8Bytes ch.toNat)).flatten

/-- Modelled from the spec: `STRICT_PATH_ENCODE_SET` (`crate::aws`, not
under `src/`) — the strict reserved-character set: percent-encode every
byte except the RFC 3986 unreserved characters (ASCII alphanumerics, `-`,
`.`, `_`, `~`) and the path delimiter `/`. -/
def strictPathEscapes (b : Nat) : Bool :=
  !((65 ≤ b && b ≤ 90) || (97 ≤ b && b ≤ 122) || (48 ≤ b && b ≤ 57) ||
    b == 45 || b == 46 || b == 95 || b == 126 || b == 47)

/-- The uppercase hex digit for a nibble. -/
def hexUpper (n : Nat) : Char := "0123456789ABCDEF".data.getD (n % 16) '0'

/-- The `%XX` escape of one byte. -/
def percentEncodeByte (b : Nat) : List Char :=
  ['%', hexUpper (b / 16), hexUpper (b % 16)]

/-- `encode_path` (`client.rs` lines 454-456):
`utf8_percent_encode(path, STRICT_PATH_ENCODE_SET)` — escape each UTF-8
byte in the strict set, keep the rest. -/
def encode_path (path : String) : String :=
  ⟨((stringUTF8 path).map (fun b =>
      if strictPathEscapes b then percentEncodeByte b
      else [Char.ofNat b])).flatten⟩

/-- `S3Config::path_url` (`client.rs` lines 146-148). -/
def path_url (config : S3Config) (path : String) : String :=
  config.bucket_endpoint ++ "/" ++ encode_path path

/-- `S3Client::copy_request` (`client.rs` lines 281-303): a PUT to the path URL of `to`,
whose `x-amz-copy-source` header is
`bucket/encode_path(from)`. -/
def copy_request (config : S3Config) (fromPath toPath : String) :
    HttpRequest :=
  { method := .PUT, url := path_url config toPath, query := [],
    headers :=
      [("x-amz-copy-source",
        config.bucket ++ "/" ++ encode_path fromPath)] }

/-! ## Lemmas and theorems -/

lemma enumFrom_map_part_number (k : Nat) (parts : List UploadPart) :
    ((parts.enumFrom k).map
      (fun p => ({ e_tag := p.2.content_id, part_number := p.1 + 1 } : MultipartPart))).map
        (fun mp => mp.part_number) = List.range' (k + 1) parts.length := by
  induction parts generalizing k with
  | nil => simp [List.enumFrom, List.range']
  | cons hd tl ih =>
    simp only [List.enumFrom, List.map_cons, List.length_cons]
    rw [List.range'_succ]
    exact congrArg (List.cons (k + 1)) (ih (k + 1))

lemma enumFrom_map_e_tag (k : Nat) (parts : List UploadPart) :
    ((parts.enumFrom k).map
      (fun p => ({ e_tag := p.2.content_id, part_number := p.1 + 1 } : MultipartPart))).map
        (fun mp => mp.e_tag) = parts.map (fun p => p.content_id) := by
  induction parts generalizing k with
  | nil => simp [List.enumFrom]
  | cons hd tl ih =>
    simp only [List.enumFrom, List.map_cons]
    exact congrArg (List.cons hd.content_id) (ih (k + 1))

/-- C1: for every ordered sequence of `N` uploaded parts, the completion
manifest assembled by `complete_multipart` has exactly `N` entries, its
part numbers are `1..N` assigned strictly by the 1-based position of each
part in the supplied sequence, and each entry pairs that position with the
entity tag of the corresponding part; no data inside a part influences the
numbering. -/
theorem complete_multipart_assigns_positional_part_numbers
    (parts : List UploadPart) :
    (completeParts parts).length = parts.length ∧
    (completeParts parts).map (fun mp => mp.part_number) =
      List.range' 1 parts.length ∧
    (completeParts parts).map (fun mp => mp.e_tag) =
      parts.map (fun p => p.content_id) := by
  refine ⟨?_, ?_, ?_⟩
  · simp [completeParts]
  · simpa [completeParts, List.enum] using enumFrom_map_part_number 0 parts
  · simpa [completeParts, List.enum] using enumFrom_map_e_tag 0 parts

/-- C2 counterexample: with a provider returning snapshot `1` (`C1`) on its
first fetch and `2` (`C2`) thereafter, an operation whose first attempt
fails signs its second attempt with `C1`, not `C2` — the snapshot is
fetched once, before the retry loop, so a fresher snapshot never reaches a
retry of the same operation. -/
theorem retry_uses_stale_credential_counterexample :
    (get_request_attempt_creds (fun n => if n = 0 then 1 else 2)
        ⟨0⟩ 2).1[1]? = some 1 ∧
    ¬ (get_request_attempt_creds (fun n => if n = 0 then 1 else 2)
        ⟨0⟩ 2).1[1]? = some 2 := by
  decide

/-- C2 amended: every attempt of one operation is signed with the single
credential snapshot fetched at the start of that operation (the snapshot the provider holds at operation start); the fetch counter advances once per
operation, so fresher snapshots are only picked up by later operations. -/
theorem operation_signs_all_attempts_with_start_snapshot
    (provider : Nat → Cred) (s : ProviderState) (attempts : Nat) :
    (get_request_attempt_creds provider s attempts).1 =
      List.replicate attempts (provider s.fetches) ∧
    (get_request_attempt_creds provider s attempts).2.fetches =
      s.fetches + 1 :=
  ⟨rfl, rfl⟩

/-- C6: every `list_request` issues a GET to the bucket endpoint whose
query parameters are exactly: `list-type=2` always; `continuation-token`
present iff a token is supplied; `delimiter` present iff the delimiter
flag is set; `prefix` present iff a prefix is supplied; `start-after`
present iff an offset is supplied. -/
theorem list_request_query_exact (config : S3Config) (pfx : Option String)
    (delimiter : Bool) (token off : Option String) :
    (list_http_request config pfx delimiter token off).method = Method.GET ∧
    (list_http_request config pfx delimiter token off).url =
      config.bucket_endpoint ∧
    ("list-type", "2") ∈ list_query pfx delimiter token off ∧
    (∀ t, ("continuation-token", t) ∈ list_query pfx delimiter token off ↔
      token = some t) ∧
    (∀ v, ("delimiter", v) ∈ list_query pfx delimiter token off ↔
      delimiter = true ∧ v = DELIMITER) ∧
    (∀ p, ("prefix", p) ∈ list_query pfx delimiter token off ↔
      pfx = some p) ∧
    (∀ o, ("start-after", o) ∈ list_query pfx delimiter token off ↔
      off = some o) ∧
    (∀ kv ∈ list_query pfx delimiter token off,
      kv.1 = "continuation-token" ∨ kv.1 = "delimiter" ∨
      kv.1 = "list-type" ∨ kv.1 = "prefix" ∨ kv.1 = "start-after") ∧
    (list_query pfx delimiter token off).length =
      1 + (if token.isSome then 1 else 0) + (if delimiter then 1 else 0) +
        (if pfx.isSome then 1 else 0) + (if off.isSome then 1 else 0) := by
  rcases token with _ | t0 <;> rcases pfx with _ | p0 <;>
    rcases off with _ | o0 <;> cases delimiter <;>
    simp [list_http_request, list_query, DELIMITER, Prod.ext_iff,
      and_comm, eq_comm] <;> tauto

/-- C6 witness: a concrete list request with every optional parameter
supplied carries all five query parameters. -/
theorem list_request_query_exact_witness :
    ("continuation-token", "T") ∈
      list_query (some "a/") true (some "T") (some "S") ∧
    ("list-type", "2") ∈ list_query (some "a/") true (some "T") (some "S") ∧
    (list_query (some "a/") true (some "T") (some "S")).length = 5 := by
  have h := list_request_query_exact ⟨"b", "e"⟩ (some "a/") true
    (some "T") (some "S")
  exact ⟨(h.2.2.2.1 "T").mpr rfl, h.2.2.1, by decide⟩

/-- C3: `list_request` extracts the continuation token from the decoded
response and removes it before converting the remainder into the page
result (so the returned page carries no token), and the pagination walk
terminates exactly when a page response carries no continuation token:
such a page is yielded and the walk ends, while a page with a token is
yielded and the walk continues. -/
theorem list_token_extraction_and_termination
    (server : ListParams → ListResponse) (pfx : Option String)
    (delimiter : Bool) (off : Option String) (fuel : Nat)
    (token : Option String) :
    (list_request server ⟨pfx, delimiter, token, off⟩).2 =
      (server ⟨pfx, delimiter, token, off⟩).next_continuation_token ∧
    (list_request server ⟨pfx, delimiter, token, off⟩).1 =
      ListResponse.toListResult
        { server ⟨pfx, delimiter, token, off⟩ with
            next_continuation_token := none } ∧
    ((list_request server ⟨pfx, delimiter, token, off⟩).2 = none →
      paginate server pfx delimiter off (fuel + 1) token =
        ([⟨pfx, delimiter, token, off⟩],
         [(list_request server ⟨pfx, delimiter, token, off⟩).1])) ∧
    (∀ t, (list_request server ⟨pfx, delimiter, token, off⟩).2 = some t →
      paginate server pfx delimiter off (fuel + 1) token =
        (⟨pfx, delimiter, token, off⟩ ::
           (paginate server pfx delimiter off fuel (some t)).1,
         (list_request server ⟨pfx, delimiter, token, off⟩).1 ::
           (paginate server pfx delimiter off fuel (some t)).2)) := by
  refine ⟨rfl, rfl, ?_, ?_⟩
  · intro h
    simp only [paginate, h]
  · intro t h
    simp only [paginate, h]

/-- C3 witness: on the three-page server, a page carrying a token
continues the walk and the tokenless third page ends it. -/
theorem list_token_extraction_and_termination_witness :
    paginate demoServer (some "a/") true none 5 (some "t2") =
      ([⟨some "a/", true, some "t2", none⟩], [⟨["page3"]⟩]) ∧
    paginate demoServer (some "a/") true none 3 none =
      (⟨some "a/", true, none, none⟩ ::
         (paginate demoServer (some "a/") true none 2 (some "t1")).1,
       ⟨["page1"]⟩ ::
         (paginate demoServer (some "a/") true none 2 (some "t1")).2) := by
  constructor
  · exact (list_token_extraction_and_termination demoServer (some "a/")
      true none 4 (some "t2")).2.2.1 rfl
  · exact (list_token_extraction_and_termination demoServer (some "a/")
      true none 2 none).2.2.2 "t1" rfl

/-- C4: every page request issued during one pagination walk carries the
fixed prefix, delimiter and start-after offset of the walk unchanged;
only the token
component can differ between requests. -/
theorem pagination_preserves_fixed_params
    (server : ListParams → ListResponse) (pfx : Option String)
    (delimiter : Bool) (off : Option String) (fuel : Nat)
    (token : Option String) :
    ∀ p ∈ (paginate server pfx delimiter off fuel token).1,
      p.pfx = pfx ∧ p.delimiter = delimiter ∧ p.off = off := by
  induction fuel generalizing token with
  | zero => intro p hp; simp [paginate] at hp
  | succ n ih =>
    intro p hp
    simp only [paginate] at hp
    rcases hmatch : (list_request server ⟨pfx, delimiter, token, off⟩).2
      with _ | t
    · rw [hmatch] at hp
      simp at hp
      simp [hp]
    · rw [hmatch] at hp
      simp at hp
      rcases hp with h | h
      · simp [h]
      · exact ih (some t) p h

/-- C4 witness: the three requests of a full walk on the three-page server
all carry the seeded prefix, delimiter and offset. -/
theorem pagination_preserves_fixed_params_witness :
    (⟨some "a/", true, some "t2", none⟩ : ListParams) ∈
      (list_paginated demoServer (some "a/") true none 5).1 ∧
    ((⟨some "a/", true, some "t2", none⟩ : ListParams).pfx = some "a/" ∧
     (⟨some "a/", true, some "t2", none⟩ : ListParams).delimiter = true ∧
     (⟨some "a/", true, some "t2", none⟩ : ListParams).off = none) := by
  refine ⟨by decide, ?_⟩
  exact pagination_preserves_fixed_params demoServer (some "a/") true none
    5 none ⟨some "a/", true, some "t2", none⟩ (by decide)

/-- C5: for a put request with a payload — with no checksum kind
configured, no checksum header is attached and the signer receives no
payload hash; with a checksum kind configured, the base64 of the digest
of the payload is attached under the header name of that kind, and the
raw digest is
passed to the signer as the payload hash exactly when the kind is
SHA256. -/
theorem put_request_checksum_policy (digest : Checksum → Bytes → Bytes)
    (content_type : Option String) (bs : Bytes) :
    (put_request none digest content_type (some bs)).payload_sha256 =
      none ∧
    (∀ ck v, (Checksum.header_name ck, v) ∉
      (put_request none digest content_type (some bs)).headers) ∧
    (∀ ck, (Checksum.header_name ck, base64Encode (digest ck bs)) ∈
      (put_request (some ck) digest content_type (some bs)).headers ∧
      ((put_request (some ck) digest content_type
          (some bs)).payload_sha256 = some (digest ck bs) ↔
        ck = Checksum.SHA256)) := by
  refine ⟨?_, ?_, ?_⟩
  · cases content_type <;> rfl
  · intro ck v
    cases ck
    cases content_type <;> simp [put_request, Checksum.header_name]
  · intro ck
    cases ck
    cases content_type <;> simp [put_request, Checksum.header_name]

/-- C5 witness: with a concrete digest function and payload, the checksum
policy behaves as stated for both the unconfigured and the SHA256 case. -/
theorem put_request_checksum_policy_witness :
    (put_request none (fun _ bs => [bs.length]) (some "text/plain")
      (some [7, 7])).payload_sha256 = none ∧
    (Checksum.header_name .SHA256, "x-amz-checksum-sha256") ∉
      (put_request none (fun _ bs => [bs.length]) (some "text/plain")
        (some [7, 7])).headers ∧
    (Checksum.header_name .SHA256, base64Encode [2]) ∈
      (put_request (some .SHA256) (fun _ bs => [bs.length])
        (some "text/plain") (some [7, 7])).headers ∧
    (put_request (some .SHA256) (fun _ bs => [bs.length])
      (some "text/plain") (some [7, 7])).payload_sha256 = some [2] := by
  have h := put_request_checksum_policy (fun _ bs => [bs.length])
    (some "text/plain") [7, 7]
  exact ⟨h.1, h.2.1 .SHA256 "x-amz-checksum-sha256",
    (h.2.2 .SHA256).1, ((h.2.2 .SHA256).2).mpr rfl⟩

lemma beginsWith_append (n rest : List Char) :
    beginsWith n (n ++ rest) = true := by
  induction n with
  | nil => rfl
  | cons a as ih => simp [beginsWith, ih]

lemma containsSeq_head (n rest : List Char) :
    containsSeq n (n ++ rest) = true := by
  cases hn : n with
  | nil => cases rest <;> simp [containsSeq, beginsWith, List.isEmpty]
  | cons a as =>
    have : (a :: as) ++ rest = a :: (as ++ rest) := rfl
    rw [this]
    simp [containsSeq]
    left
    have := beginsWith_append (a :: as) rest
    simpa using this

lemma containsSeq_append_left (pre n h : List Char)
    (hc : containsSeq n h = true) : containsSeq n (pre ++ h) = true := by
  induction pre with
  | nil => simpa using hc
  | cons c cs ih =>
    simp only [List.cons_append, containsSeq, Bool.or_eq_true]
    right
    exact ih

/-- `needle` occurs in `pre ++ needle ++ suf`, at the string level. -/
lemma strContains_middle (n pre suf : String) :
    strContains n (pre ++ (n ++ suf)) = true := by
  unfold strContains
  rw [String.data_append, String.data_append]
  exact containsSeq_append_left pre.data n.data (n.data ++ suf.data)
    (containsSeq_head n.data suf.data)

lemma strContains_parts (n hay : String) (pre suf : List Char)
    (h : hay.data = pre ++ (n.data ++ suf)) : strContains n hay = true := by
  unfold strContains
  rw [h]
  exact containsSeq_append_left pre _ _ (containsSeq_head _ _)

/-- C7 amended: the display string of every error names the operation attempted
(get, put, delete, copy, list, create-multipart, complete-multipart), and
an error carries — and displays — the affected path exactly when it arose
from a get, put, delete or copy operation; the list and multipart errors
carry no path, even though the multipart operations take a location. -/
theorem error_identifies_operation_and_path (e : S3Error) :
    strContains e.opPhrase e.message = true ∧
    (∀ p, e.pathOf = some p → strContains p e.message = true) ∧
    (e.pathOf.isSome = true ↔
      (e.opOf = .get ∨ e.opOf = .put ∨ e.opOf = .delete ∨
        e.opOf = .copy)) := by
  cases e with
  | GetRequest s p =>
    refine ⟨?_, ?_, by simp [S3Error.pathOf, S3Error.opOf]⟩
    · apply strContains_parts _ _ ("Error performing ".data)
        (" ".data ++ (p.data ++ (": ".data ++ s.data)))
      have hd : ("Error performing get request " : String).data =
          "Error performing ".data ++ ("get request".data ++ " ".data) := by
        decide
      simp [S3Error.message, S3Error.opPhrase, String.data_append, hd,
        List.append_assoc]
    · intro q hq
      simp [S3Error.pathOf] at hq
      subst hq
      apply strContains_parts _ _ ("Error performing get request ".data)
        (": ".data ++ s.data)
      simp [S3Error.message, String.data_append, List.append_assoc]
  | GetResponseBody s p =>
    refine ⟨?_, ?_, by simp [S3Error.pathOf, S3Error.opOf]⟩
    · apply strContains_parts _ _ ("Error fetching ".data)
        (" ".data ++ (p.data ++ (": ".data ++ s.data)))
      have hd : ("Error fetching get response body " : String).data =
          "Error fetching ".data ++
            ("get response body".data ++ " ".data) := by
        decide
      simp [S3Error.message, S3Error.opPhrase, String.data_append, hd,
        List.append_assoc]
    · intro q hq
      simp [S3Error.pathOf] at hq
      subst hq
      apply strContains_parts _ _
        ("Error fetching get response body ".data) (": ".data ++ s.data)
      simp [S3Error.message, String.data_append, List.append_assoc]
  | PutRequest s p =>
    refine ⟨?_, ?_, by simp [S3Error.pathOf, S3Error.opOf]⟩
    · apply strContains_parts _ _ ("Error performing ".data)
        (" ".data ++ (p.data ++ (": ".data ++ s.data)))
      have hd : ("Error performing put request " : String).data =
          "Error performing ".data ++ ("put request".data ++ " ".data) := by
        decide
      simp [S3Error.message, S3Error.opPhrase, String.data_append, hd,
        List.append_assoc]
    · intro q hq
      simp [S3Error.pathOf] at hq
      subst hq
      apply strContains_parts _ _ ("Error performing put request ".data)
        (": ".data ++ s.data)
      simp [S3Error.message, String.data_append, List.append_assoc]
  | DeleteRequest s p =>
    refine ⟨?_, ?_, by simp [S3Error.pathOf, S3Error.opOf]⟩
    · apply strContains_parts _ _ ("Error performing ".data)
        (" ".data ++ (p.data ++ (": ".data ++ s.data)))
      have hd : ("Error performing delete request " : String).data =
          "Error performing ".data ++
            ("delete request".data ++ " ".data) := by
        decide
      simp [S3Error.message, S3Error.opPhrase, String.data_append, hd,
        List.append_assoc]
    · intro q hq
      simp [S3Error.pathOf] at hq
      subst hq
      apply strContains_parts _ _
        ("Error performing delete request ".data) (": ".data ++ s.data)
      simp [S3Error.message, String.data_append, List.append_assoc]
  | CopyRequest s p =>
    refine ⟨?_, ?_, by simp [S3Error.pathOf, S3Error.opOf]⟩
    · apply strContains_parts _ _ ("Error performing ".data)
        (" ".data ++ (p.data ++ (": ".data ++ s.data)))
      have hd : ("Error performing copy request " : String).data =
          "Error performing ".data ++
            ("copy request".data ++ " ".data) := by
        decide
      simp [S3Error.message, S3Error.opPhrase, String.data_append, hd,
        List.append_assoc]
    · intro q hq
      simp [S3Error.pathOf] at hq
      subst hq
      apply strContains_parts _ _ ("Error performing copy request ".data)
        (": ".data ++ s.data)
      simp [S3Error.message, String.data_append, List.append_assoc]
  | ListRequest s =>
    refine ⟨?_, ?_, by simp [S3Error.pathOf, S3Error.opOf]⟩
    · apply strContains_parts _ _ ("Error performing ".data)
        (": ".data ++ s.data)
      have hd : ("Error performing list request: " : String).data =
          "Error performing ".data ++
            ("list request".data ++ ": ".data) := by
        decide
      simp [S3Error.message, S3Error.opPhrase, String.data_append, hd,
        List.append_assoc]
    · intro q hq
      simp [S3Error.pathOf] at hq
  | ListResponseBody s =>
    refine ⟨?_, ?_, by simp [S3Error.pathOf, S3Error.opOf]⟩
    · apply strContains_parts _ _ ("Error getting ".data)
        (": ".data ++ s.data)
      have hd : ("Error getting list response body: " : String).data =
          "Error getting ".data ++
            ("list response body".data ++ ": ".data) := by
        decide
      simp [S3Error.message, S3Error.opPhrase, String.data_append, hd,
        List.append_assoc]
    · intro q hq
      simp [S3Error.pathOf] at hq
  | CreateMultipartRequest s =>
    refine ⟨?_, ?_, by simp [S3Error.pathOf, S3Error.opOf]⟩
    · apply strContains_parts _ _ ("Error performing ".data)
        (": ".data ++ s.data)
      have hd :
          ("Error performing create multipart request: " : String).data =
          "Error performing ".data ++
            ("create multipart request".data ++ ": ".data) := by
        decide
      simp [S3Error.message, S3Error.opPhrase, String.data_append, hd,
        List.append_assoc]
    · intro q hq
      simp [S3Error.pathOf] at hq
  | CreateMultipartResponseBody s =>
    refine ⟨?_, ?_, by simp [S3Error.pathOf, S3Error.opOf]⟩
    · apply strContains_parts _ _ ("Error getting ".data)
        (": ".data ++ s.data)
      have hd :
          ("Error getting create multipart response body: " : String).data =
          "Error getting ".data ++
            ("create multipart response body".data ++ ": ".data) := by
        decide
      simp [S3Error.message, S3Error.opPhrase, String.data_append, hd,
        List.append_assoc]
    · intro q hq
      simp [S3Error.pathOf] at hq
  | CompleteMultipartRequest s =>
    refine ⟨?_, ?_, by simp [S3Error.pathOf, S3Error.opOf]⟩
    · apply strContains_parts _ _ ("Error performing ".data)
        (": ".data ++ s.data)
      have hd :
          ("Error performing complete multipart request: " : String).data =
          "Error performing ".data ++
            ("complete multipart request".data ++ ": ".data) := by
        decide
      simp [S3Error.message, S3Error.opPhrase, String.data_append, hd,
        List.append_assoc]
    · intro q hq
      simp [S3Error.pathOf] at hq
  | InvalidListResponse s =>
    refine ⟨?_, ?_, by simp [S3Error.pathOf, S3Error.opOf]⟩
    · apply strContains_parts _ _ ("Got ".data) (": ".data ++ s.data)
      have hd : ("Got invalid list response: " : String).data =
          "Got ".data ++ ("invalid list response".data ++ ": ".data) := by
        decide
      simp [S3Error.message, S3Error.opPhrase, String.data_append, hd,
        List.append_assoc]
    · intro q hq
      simp [S3Error.pathOf] at hq
  | InvalidMultipartResponse s =>
    refine ⟨?_, ?_, by simp [S3Error.pathOf, S3Error.opOf]⟩
    · apply strContains_parts _ _ ("Got ".data) (": ".data ++ s.data)
      have hd : ("Got invalid multipart response: " : String).data =
          "Got ".data ++
            ("invalid multipart response".data ++ ": ".data) := by
        decide
      simp [S3Error.message, S3Error.opPhrase, String.data_append, hd,
        List.append_assoc]
    · intro q hq
      simp [S3Error.pathOf] at hq

/-- C7 witness: a concrete copy error displays both its operation and its
path. -/
theorem error_identifies_operation_and_path_witness :
    strContains (S3Error.opPhrase (.CopyRequest "timeout" "a/b"))
      (S3Error.message (.CopyRequest "timeout" "a/b")) = true ∧
    strContains "a/b" (S3Error.message (.CopyRequest "timeout" "a/b")) =
      true := by
  have h := error_identifies_operation_and_path (.CopyRequest "timeout" "a/b")
  exact ⟨h.1, h.2.1 "a/b" rfl⟩

/-- C7 counterexample: a failing `complete_multipart` at location
`data/object` surfaces an error that carries no path and whose display
string does not mention the location — refuting that every path-scoped
error of every path-scoped operation identifies the affected path. -/
theorem multipart_error_lacks_path_counterexample :
    complete_multipart (fun _ => .ok "xml") (fun _ => .error "timeout") 1
      "data/object" "uid" [] =
      .err (S3Error.CompleteMultipartRequest "timeout") ∧
    (S3Error.CompleteMultipartRequest "timeout").pathOf = none ∧
    strContains "data/object"
      (S3Error.CompleteMultipartRequest "timeout").message = false := by
  exact ⟨rfl, rfl, by decide⟩

/-- C9: for the list and multipart-initiate pipelines, the number of
transport attempts is decided by the retry loop alone — it is independent
of the decoder, so a decode failure is never retried — and a decode
failure on a successfully transported response surfaces as the dedicated
decode-error variant, distinct from the request-kind transport
variants. -/
theorem decode_errors_after_retry_never_retried
    (outcomes : Nat → Except String Bytes) (budget : Nat)
    (d1 d2 : Bytes → Except String ListResponse)
    (g1 g2 : Bytes → Except String InitiateMultipart) :
    (list_request_pipeline outcomes budget d1).1 =
      (send_retry outcomes 0 budget).1 ∧
    (list_request_pipeline outcomes budget d1).1 =
      (list_request_pipeline outcomes budget d2).1 ∧
    (create_multipart_pipeline outcomes budget g1).1 =
      (send_retry outcomes 0 budget).1 ∧
    (create_multipart_pipeline outcomes budget g1).1 =
      (create_multipart_pipeline outcomes budget g2).1 ∧
    (∀ bodyBytes e, (send_retry outcomes 0 budget).2 = .ok bodyBytes →
      d1 bodyBytes = .error e →
      (list_request_pipeline outcomes budget d1).2 =
        .error (.InvalidListResponse e) ∧
      ∀ e2, (list_request_pipeline outcomes budget d1).2 ≠
          .error (.ListRequest e2) ∧
        (list_request_pipeline outcomes budget d1).2 ≠
          .error (.ListResponseBody e2)) ∧
    (∀ bodyBytes e, (send_retry outcomes 0 budget).2 = .ok bodyBytes →
      g1 bodyBytes = .error e →
      (create_multipart_pipeline outcomes budget g1).2 =
        .error (.InvalidMultipartResponse e) ∧
      ∀ e2, (create_multipart_pipeline outcomes budget g1).2 ≠
        .error (.CreateMultipartRequest e2)) := by
  refine ⟨?_, ?_, ?_, ?_, ?_, ?_⟩
  · rcases hsr : send_retry outcomes 0 budget with ⟨n, res⟩
    rcases res with e | b
    · simp [list_request_pipeline, hsr]
    · rcases hd : d1 b with e | r <;>
        simp [list_request_pipeline, hsr, hd]
  · rcases hsr : send_retry outcomes 0 budget with ⟨n, res⟩
    rcases res with e | b
    · simp [list_request_pipeline, hsr]
    · rcases hd : d1 b with e | r <;> rcases hd2 : d2 b with e2 | r2 <;>
        simp [list_request_pipeline, hsr, hd, hd2]
  · rcases hsr : send_retry outcomes 0 budget with ⟨n, res⟩
    rcases res with e | b
    · simp [create_multipart_pipeline, hsr]
    · rcases hd : g1 b with e | r <;>
        simp [create_multipart_pipeline, hsr, hd]
  · rcases hsr : send_retry outcomes 0 budget with ⟨n, res⟩
    rcases res with e | b
    · simp [create_multipart_pipeline, hsr]
    · rcases hd : g1 b with e | r <;> rcases hd2 : g2 b with e2 | r2 <;>
        simp [create_multipart_pipeline, hsr, hd, hd2]
  · intro bodyBytes e hok hdec
    refine ⟨?_, fun e2 => ⟨?_, ?_⟩⟩ <;>
      simp [list_request_pipeline, hok, hdec]
  · intro bodyBytes e hok hdec
    refine ⟨?_, fun e2 => ?_⟩ <;>
      simp [create_multipart_pipeline, hok, hdec]

/-- C9 witness: a transport that succeeds at once with a decoder that
rejects the body yields the decode-error variant and exactly one
attempt. -/
theorem decode_errors_after_retry_never_retried_witness :
    (list_request_pipeline (fun _ => .ok [60]) 2
        (fun _ => .error "syntax")).1 =
      (send_retry (fun _ => .ok [60]) 0 2).1 ∧
    (list_request_pipeline (fun _ => .ok [60]) 2
        (fun _ => .error "syntax")).2 =
      .error (.InvalidListResponse "syntax") ∧
    (create_multipart_pipeline (fun _ => .ok [60]) 2
        (fun _ => .error "syntax")).2 =
      .error (.InvalidMultipartResponse "syntax") := by
  have h := decode_errors_after_retry_never_retried (fun _ => .ok [60]) 2
    (fun _ => .error "syntax") (fun _ => .error "syntax")
    (fun _ => .error "syntax") (fun _ => .error "syntax")
  exact ⟨h.1, (h.2.2.2.2.1 [60] "syntax" rfl rfl).1,
    (h.2.2.2.2.2 [60] "syntax" rfl rfl).1⟩

/-- C10: `complete_multipart` unwraps the serialized manifest — if
serialization fails the operation panics rather than returning an error,
and it avoids panicking exactly when serializing the manifest of the
supplied parts succeeds. -/
theorem complete_multipart_unwrap_panics
    (ser : CompleteMultipart → Except String String)
    (outcomes : Nat → Except String Bytes) (budget : Nat)
    (location upload_id : String) (parts : List UploadPart) :
    (∀ e, ser ⟨completeParts parts⟩ = .error e →
      complete_multipart ser outcomes budget location upload_id parts =
        .panicked) ∧
    (complete_multipart ser outcomes budget location upload_id parts ≠
        .panicked ↔
      ∃ s, ser ⟨completeParts parts⟩ = .ok s) := by
  constructor
  · intro e he
    simp [complete_multipart, he]
  · rcases hser : ser ⟨completeParts parts⟩ with e | s
    · simp [complete_multipart, hser]
    · rcases h2 : (send_retry outcomes 0 budget).2 with e2 | b <;>
        simp [complete_multipart, hser, h2]

/-- C10 witness: a failing serializer makes a concrete
`complete_multipart` call panic. -/
theorem complete_multipart_unwrap_panics_witness :
    complete_multipart (fun _ => .error "xml depth") (fun _ => .ok [1]) 1
      "obj" "uid" [⟨"E1"⟩] = .panicked := by
  exact (complete_multipart_unwrap_panics (fun _ => .error "xml depth")
    (fun _ => .ok [1]) 1 "obj" "uid" [⟨"E1"⟩]).1 "xml depth" rfl

/-- C8: for every pair of paths, `copy_request` issues a PUT whose URL is
the path URL of `to` — the bucket endpoint, `/`, then `to` encoded under
the strict set — and whose `x-amz-copy-source` header value is the bucket
identifier, `/`, then `from` encoded under the strict set. -/
theorem copy_request_url_and_source (config : S3Config)
    (fromPath toPath : String) :
    (copy_request config fromPath toPath).method = Method.PUT ∧
    (copy_request config fromPath toPath).url = path_url config toPath ∧
    (copy_request config fromPath toPath).url =
      config.bucket_endpoint ++ "/" ++ encode_path toPath ∧
    (copy_request config fromPath toPath).headers =
      [("x-amz-copy-source",
        config.bucket ++ "/" ++ encode_path fromPath)] :=
  ⟨rfl, rfl, rfl, rfl⟩

/-- The strict set keeps unreserved characters and the delimiter and
escapes the rest. -/
lemma encode_path_strict_sample : encode_path "a b/c~" = "a%20b/c~" := by
  decide


end S3
